import Mathlib

/-!
Verification of the scrypt proof-of-work hash module
(`src/litecoin_scrypt/scryptmodule_py3.c`).

The repository ships only the CPython wrapper `scrypt_getpowhash`; the
scrypt core (`scrypt_1024_1_1_256` and its components Salsa20/8, BlockMix,
ROMix and the PBKDF2-HMAC-SHA256 harness) is declared in `scrypt.h` but its
implementation is not part of the sources.  The wrapper is embedded from
the C code; the core components are modelled from the specification, as
noted on each definition.

Bytes are `Nat` values below 256 in `List Nat`; 32-bit machine words are
`Nat` values below 2^32, with wrap-around made explicit by `% 2^32`.
-/

namespace LtcScrypt

/-- Addition of 32-bit machine words, wrapping mod 2^32. -/
def add32 (a b : Nat) : Nat := (a + b) % 4294967296

/-- Left rotation of a 32-bit word by `n` (0 < n < 32) bits. -/
def rotl32 (x n : Nat) : Nat := ((x <<< n) ||| (x >>> (32 - n))) % 4294967296

/-- Right rotation of a 32-bit word by `n` (0 < n < 32) bits. -/
def rotr32 (x n : Nat) : Nat := ((x >>> n) ||| (x <<< (32 - n))) % 4294967296

/-- Big-endian 4-byte encoding of a 32-bit word. -/
def be32 (x : Nat) : List Nat :=
  [x / 16777216 % 256, x / 65536 % 256, x / 256 % 256, x % 256]

/-- Little-endian 4-byte encoding of a 32-bit word. -/
def le32 (x : Nat) : List Nat :=
  [x % 256, x / 256 % 256, x / 65536 % 256, x / 16777216 % 256]

/-- Big-endian 8-byte encoding of a 64-bit length value. -/
def be64 (x : Nat) : List Nat :=
  be32 (x / 4294967296) ++ be32 (x % 4294967296)

/-- Decode a byte list into big-endian 32-bit words, 4 bytes per word. -/
def toWordsBE : List Nat → List Nat
  | a :: b :: c :: d :: rest => (((a * 256 + b) * 256 + c) * 256 + d) :: toWordsBE rest
  | _ => []

/-- Decode a byte list into little-endian 32-bit words, 4 bytes per word. -/
def toWordsLE : List Nat → List Nat
  | a :: b :: c :: d :: rest => (((d * 256 + c) * 256 + b) * 256 + a) :: toWordsLE rest
  | _ => []

/-- Concatenate a list of byte lists. -/
def concatAll : List (List Nat) → List Nat
  | [] => []
  | l :: ls => l ++ concatAll ls

/-- Encode a word list back to bytes, little-endian per word. -/
def fromWordsLE (ws : List Nat) : List Nat := concatAll (ws.map le32)

/-! ### SHA-256 (FIPS 180-4)

Modelled from the spec: the repository's `scrypt.c` implementing the
SHA-256 primitive underlying the PBKDF2-HMAC-SHA256 harness (spec section 4.4)
is absent from the sources; the definitions follow the standard the spec
names (HMAC-SHA256 per RFC 2104 / FIPS 180-4). -/

/-- The eight-word SHA-256 working state. -/
structure Hash8 where
  a : Nat
  b : Nat
  c : Nat
  d : Nat
  e : Nat
  f : Nat
  g : Nat
  h : Nat
deriving Repr, DecidableEq

/-- SHA-256 initial hash value (FIPS 180-4, in decimal). -/
def sha256iv : Hash8 :=
  ⟨1779033703, 3144134277, 1013904242, 2773480762,
   1359893119, 2600822924, 528734635, 1541459225⟩

/-- The 64 SHA-256 round constants (FIPS 180-4, in decimal). -/
def sha256k : List Nat :=
  [1116352408, 1899447441, 3049323471, 3921009573, 961987163, 1508970993,
   2453635748, 2870763221, 3624381080, 310598401, 607225278, 1426881987,
   1925078388, 2162078206, 2614888103, 3248222580, 3835390401, 4022224774,
   264347078, 604807628, 770255983, 1249150122, 1555081692, 1996064986,
   2554220882, 2821834349, 2952996808, 3210313671, 3336571891, 3584528711,
   113926993, 338241895, 666307205, 773529912, 1294757372, 1396182291,
   1695183700, 1986661051, 2177026350, 2456956037, 2730485921, 2820302411,
   3259730800, 3345764771, 3516065817, 3600352804, 4094571909, 275423344,
   430227734, 506948616, 659060556, 883997877, 958139571, 1322822218,
   1537002063, 1747873779, 1955562222, 2024104815, 2227730452, 2361852424,
   2428436474, 2756734187, 3204031479, 3329325298]

/-- Bitwise complement of a 32-bit word. -/
def not32 (x : Nat) : Nat := Nat.xor 4294967295 x

/-- SHA-256 choice function Ch(x,y,z). -/
def ch (x y z : Nat) : Nat := Nat.xor (Nat.land x y) (Nat.land (not32 x) z)

/-- SHA-256 majority function Maj(x,y,z). -/
def maj (x y z : Nat) : Nat :=
  Nat.xor (Nat.land x y) (Nat.xor (Nat.land x z) (Nat.land y z))

/-- SHA-256 big sigma-0. -/
def bsig0 (x : Nat) : Nat := Nat.xor (rotr32 x 2) (Nat.xor (rotr32 x 13) (rotr32 x 22))

/-- SHA-256 big sigma-1. -/
def bsig1 (x : Nat) : Nat := Nat.xor (rotr32 x 6) (Nat.xor (rotr32 x 11) (rotr32 x 25))

/-- SHA-256 small sigma-0. -/
def ssig0 (x : Nat) : Nat := Nat.xor (rotr32 x 7) (Nat.xor (rotr32 x 18) (x >>> 3))

/-- SHA-256 small sigma-1. -/
def ssig1 (x : Nat) : Nat := Nat.xor (rotr32 x 17) (Nat.xor (rotr32 x 19) (x >>> 10))

/-- One SHA-256 compression round; `kwt` is K[t] + W[t] mod 2^32. -/
def sha256round (kwt : Nat) (s : Hash8) : Hash8 :=
  let t1 := add32 s.h (add32 (bsig1 s.e) (add32 (ch s.e s.f s.g) kwt))
  let t2 := add32 (bsig0 s.a) (maj s.a s.b s.c)
  ⟨add32 t1 t2, s.a, s.b, s.c, add32 s.d t1, s.e, s.f, s.g⟩

/-- Extend the 16 message words of a block to the 64-entry message schedule. -/
def sha256sched (w16 : List Nat) : List Nat :=
  (List.range 48).foldl
    (fun w _ =>
      let n := w.length
      w ++ [add32 (add32 (w.getD (n - 16) 0) (ssig0 (w.getD (n - 15) 0)))
                  (add32 (w.getD (n - 7) 0) (ssig1 (w.getD (n - 2) 0)))])
    w16

/-- Compress one 64-byte block into the running state. -/
def sha256compress (s : Hash8) (block : List Nat) : Hash8 :=
  let w := sha256sched (toWordsBE block)
  let t := (List.range 64).foldl
    (fun st i => sha256round (add32 (sha256k.getD i 0) (w.getD i 0)) st) s
  ⟨add32 s.a t.a, add32 s.b t.b, add32 s.c t.c, add32 s.d t.d,
   add32 s.e t.e, add32 s.f t.f, add32 s.g t.g, add32 s.h t.h⟩

/-- Merkle-Damgard padding: append 0x80, zeros, then the 64-bit bit length. -/
def sha256pad (m : List Nat) : List Nat :=
  m ++ 0x80 :: List.replicate ((119 - m.length % 64) % 64) 0 ++ be64 (8 * m.length)

/-- Split a byte list into 64-byte blocks; the first argument is fuel. -/
def chunks64 : Nat → List Nat → List (List Nat)
  | 0, _ => []
  | _ + 1, [] => []
  | fuel + 1, l => l.take 64 :: chunks64 fuel (l.drop 64)

/-- SHA-256 of a byte list: a 32-byte big-endian digest. -/
def sha256 (m : List Nat) : List Nat :=
  let p := sha256pad m
  let s := (chunks64 p.length p).foldl sha256compress sha256iv
  be32 s.a ++ be32 s.b ++ be32 s.c ++ be32 s.d ++
  be32 s.e ++ be32 s.f ++ be32 s.g ++ be32 s.h

/-! ### HMAC-SHA256 and PBKDF2 (RFC 2104, RFC 2898)

Modelled from the spec: the PBKDF2-HMAC-SHA256 harness of `scrypt.c`
(spec section 4.4) is absent from the sources; definitions follow the
RFC semantics the spec requires. -/

/-- HMAC-SHA256: keys longer than the 64-byte block are hashed first,
then padded with zeros; inner pad 0x36, outer pad 0x5c. -/
def hmacSha256 (key msg : List Nat) : List Nat :=
  let k0 := if 64 < key.length then sha256 key else key
  let k := k0 ++ List.replicate (64 - k0.length) 0
  sha256 (k.map (Nat.xor 0x5c) ++ sha256 (k.map (Nat.xor 0x36) ++ msg))

/-- One PBKDF2 block for iteration count 1: HMAC over the salt with the
1-based block counter appended big-endian.  With c = 1 the XOR fold over
iterations is this single HMAC value itself. -/
def pbkdf2Block (pw salt : List Nat) (i : Nat) : List Nat :=
  hmacSha256 pw (salt ++ be32 i)

/-- PBKDF2-HMAC-SHA256 with iteration count 1: the derived key is the
concatenation of the blocks for counters 1, 2, ... truncated to `dkLen`
bytes. -/
def pbkdf2sha256 (pw salt : List Nat) (dkLen : Nat) : List Nat :=
  (concatAll ((List.range ((dkLen + 31) / 32)).map
    (fun i => pbkdf2Block pw salt (i + 1)))).take dkLen

/-! ### Salsa20/8 core

Modelled from the spec: the Salsa20/8 permutation of `scrypt.c`
(spec section 4.1) is absent from the sources.  The definitions follow
the standard Salsa20 core the spec requires (quarter-rounds with rotation
constants 7, 9, 13, 18; column rounds then row rounds; the standard
feedforward combining the input with the round output word-wise
mod 2^32), which the spec's known-answer-vector requirement
(section 8) pins down. -/

/-- The Salsa20 quarter-round on positions `a b c d` of a 16-word state:
b ^= R(a+d,7); c ^= R(b+a,9); d ^= R(c+b,13); a ^= R(d+c,18). -/
def quarterround (st : List Nat) (a b c d : Nat) : List Nat :=
  let s1 := st.set b (Nat.xor (st.getD b 0) (rotl32 (add32 (st.getD a 0) (st.getD d 0)) 7))
  let s2 := s1.set c (Nat.xor (s1.getD c 0) (rotl32 (add32 (s1.getD b 0) (s1.getD a 0)) 9))
  let s3 := s2.set d (Nat.xor (s2.getD d 0) (rotl32 (add32 (s2.getD c 0) (s2.getD b 0)) 13))
  s3.set a (Nat.xor (s3.getD a 0) (rotl32 (add32 (s3.getD d 0) (s3.getD c 0)) 18))

/-- Salsa20 column round: quarter-rounds down the four columns. -/
def columnround (st : List Nat) : List Nat :=
  quarterround (quarterround (quarterround (quarterround st 0 4 8 12) 5 9 13 1) 10 14 2 6) 15 3 7 11

/-- Salsa20 row round: quarter-rounds along the four rows. -/
def rowround (st : List Nat) : List Nat :=
  quarterround (quarterround (quarterround (quarterround st 0 1 2 3) 5 6 7 4) 10 11 8 9) 15 12 13 14

/-- One Salsa20 double round: a column round then a row round. -/
def doubleround (st : List Nat) : List Nat := rowround (columnround st)

/-- Salsa20/8 core on a 16-word (64-byte little-endian) block: 8 rounds
(4 double rounds) followed by the word-wise mod 2^32 feedforward addition
of the input. -/
def salsa20_8 (x : List Nat) : List Nat :=
  List.zipWith add32 x (doubleround (doubleround (doubleround (doubleround x))))

/-! ### BlockMix, Integerify and ROMix

Modelled from the spec: the scrypt BlockMix and ROMix loops of `scrypt.c`
(spec sections 4.2 and 4.3) are absent from the sources; definitions
follow the spec's description of the standard scrypt construction with
r = 1, N = 1024.  A 128-byte mixing buffer is 32 little-endian words. -/

/-- scrypt BlockMix for r = 1 on a 32-word buffer: X starts as the last
64-byte block, each half is XORed into X and passed through Salsa20/8;
the outputs are concatenated (the even/odd de-interleave is the identity
for r = 1). -/
def blockMix (B : List Nat) : List Nat :=
  let y0 := salsa20_8 (List.zipWith Nat.xor (B.drop 16) (B.take 16))
  let y1 := salsa20_8 (List.zipWith Nat.xor y0 (B.drop 16))
  y0 ++ y1

/-- Integerify for r = 1: the low-order (first little-endian) 32-bit word
of the last 64-byte block of B, i.e. word 16 of the 32-word buffer. -/
def integerify (B : List Nat) : Nat := B.getD 16 0

/-- ROMix fill phase: iterate `n` times, storing the current B into the
next V slot and replacing B with BlockMix(B); returns the filled table
and the final B. -/
def romixFill (B : List Nat) : Nat → List (List Nat) × List Nat
  | 0 => ([], B)
  | n + 1 =>
    let r := romixFill (blockMix B) n
    (B :: r.1, r.2)

/-- ROMix mix phase: iterate `k` times; each step computes
j = Integerify(B) mod N, XORs B with V[j] and sets B = BlockMix(B). -/
def romixMix (V : List (List Nat)) (N : Nat) : List Nat → Nat → List Nat
  | B, 0 => B
  | B, k + 1 =>
    romixMix V N
      (blockMix (List.zipWith Nat.xor B (V.getD (integerify B % N) [])))
      k

/-- ROMix with N = 1024 on a 32-word buffer: fill all 1024 table slots,
then run 1024 mix-phase iterations. -/
def romix (B : List Nat) : List Nat :=
  let fr := romixFill B 1024
  romixMix fr.1 1024 fr.2 1024

/-! ### The scrypt driver

Modelled from the spec: `scrypt_1024_1_1_256` of `scrypt.c`
(spec section 4.5) is absent from the sources; only its declaration is
used by the wrapper.  PBKDF2-expand with the input as both password and
salt yields the 128-byte B; ROMix processes it; PBKDF2-compress with the
input as password and the processed B as salt yields the 32-byte digest. -/

/-- The scrypt(1024,1,1,256) proof-of-work hash of an 80-byte input. -/
def scrypt_1024_1_1_256 (input : List Nat) : List Nat :=
  pbkdf2sha256 input
    (fromWordsLE (romix (toWordsLE (pbkdf2sha256 input input 128)))) 32

/-! ### The CPython wrapper `scrypt_getpowhash`

Embedded from `src/litecoin_scrypt/scryptmodule_py3.c`.  The argument is
`none` when `PyArg_ParseTuple(args, "y*", &input)` fails (the argument is
not a single bytes-like object) and `some input` when it yields a buffer
with bytes `input`; `allocOk` tells whether `PyMem_Malloc(32)` succeeds.
The observable effects of a call are recorded explicitly. -/

/-- The three Python-level errors the wrapper can raise: a TypeError from
argument parsing, the ValueError for a wrong length, and MemoryError from
`PyErr_NoMemory`. -/
inductive ScryptError where
  | typeError
  | valueError
  | memoryError
deriving Repr, DecidableEq

/-- The observable outcome of one `scrypt_getpowhash` call. -/
structure CallResult where
  /-- The returned Python object: an error, or the bytes of the digest. -/
  result : Except ScryptError (List Nat)
  /-- Whether the input buffer was acquired from the argument tuple. -/
  bufferAcquired : Bool
  /-- How many times `PyBuffer_Release` ran on the input buffer. -/
  bufferReleases : Nat
  /-- Whether `PyMem_Malloc(32)` for the output was attempted. -/
  outputAllocAttempted : Bool
  /-- Whether `scrypt_1024_1_1_256` was invoked. -/
  coreInvoked : Bool
  /-- The caller's input bytes when the call returns (the wrapper passes
  the buffer read-only and never writes it). -/
  inputAfter : Option (List Nat)
deriving Repr

/-- The wrapper `scrypt_getpowhash`: parse the argument tuple, check the
length is exactly 80, allocate the 32-byte output, run the core, release
the buffer and build the return value — mirroring the C control flow. -/
def scrypt_getpowhash (args : Option (List Nat)) (allocOk : Bool) : CallResult :=
  match args with
  | none =>
    ⟨.error .typeError, false, 0, false, false, none⟩
  | some input =>
    if input.length ≠ 80 then
      ⟨.error .valueError, true, 1, false, false, some input⟩
    else if allocOk = false then
      ⟨.error .memoryError, true, 1, true, false, some input⟩
    else
      ⟨.ok (scrypt_1024_1_1_256 input), true, 1, true, true, some input⟩

/-! ### Helper lemmas -/

theorem sha256_length (m : List Nat) : (sha256 m).length = 32 := by
  simp [sha256, be32]

theorem hmacSha256_length (key msg : List Nat) : (hmacSha256 key msg).length = 32 :=
  sha256_length _

theorem pbkdf2Block_length (pw salt : List Nat) (i : Nat) :
    (pbkdf2Block pw salt i).length = 32 :=
  hmacSha256_length _ _

theorem pbkdf2_length_32 (pw salt : List Nat) : (pbkdf2sha256 pw salt 32).length = 32 := by
  simp [pbkdf2sha256, concatAll, List.range_succ, pbkdf2Block_length]

theorem scrypt_digest_length (input : List Nat) :
    (scrypt_1024_1_1_256 input).length = 32 :=
  pbkdf2_length_32 _ _

theorem romixFill_snd (B : List Nat) (n : Nat) :
    (romixFill B n).2 = blockMix^[n] B := by
  induction n generalizing B with
  | zero => simp [romixFill]
  | succ n ih => simp [romixFill, ih, Function.iterate_succ_apply]

theorem romixFill_fst_length (B : List Nat) (n : Nat) :
    (romixFill B n).1.length = n := by
  induction n generalizing B with
  | zero => simp [romixFill]
  | succ n ih => simp [romixFill, ih]

theorem romixFill_fst_getD (B : List Nat) (n i : Nat) (h : i < n) :
    (romixFill B n).1.getD i [] = blockMix^[i] B := by
  induction n generalizing B i with
  | zero => exact absurd h (Nat.not_lt_zero i)
  | succ n ih =>
    cases i with
    | zero => simp [romixFill]
    | succ i =>
      have := ih (blockMix B) i (by omega)
      simpa [romixFill, Function.iterate_succ_apply] using this

end LtcScrypt

namespace LtcScrypt

/-- C1: a bytes-like argument whose length is not 80 (in particular 79 or
81) is rejected with the ValueError before the output allocation and
before the hash core runs; the buffer is released and no output is
produced. -/
theorem c1_bad_length_rejected (x : List Nat) (allocOk : Bool) (h : x.length ≠ 80) :
    scrypt_getpowhash (some x) allocOk =
      ⟨Except.error ScryptError.valueError, true, 1, false, false, some x⟩ := by
  simp [scrypt_getpowhash, h]

/-- Witness for C1 at the concrete lengths 79 and 81. -/
theorem c1_bad_length_rejected_witness :
    scrypt_getpowhash (some (List.replicate 79 0)) true =
      ⟨Except.error ScryptError.valueError, true, 1, false, false,
        some (List.replicate 79 0)⟩ ∧
    scrypt_getpowhash (some (List.replicate 81 0)) false =
      ⟨Except.error ScryptError.valueError, true, 1, false, false,
        some (List.replicate 81 0)⟩ :=
  ⟨c1_bad_length_rejected (List.replicate 79 0) true (by decide),
   c1_bad_length_rejected (List.replicate 81 0) false (by decide)⟩

/-- C2: on an 80-byte input, when the output allocation succeeds, the call
returns the scrypt digest without error and the digest is exactly 32
bytes long. -/
theorem c2_valid_input_ok (x : List Nat) (h : x.length = 80) :
    (scrypt_getpowhash (some x) true).result = Except.ok (scrypt_1024_1_1_256 x) ∧
    (scrypt_1024_1_1_256 x).length = 32 := by
  refine ⟨?_, scrypt_digest_length x⟩
  simp [scrypt_getpowhash, h]

/-- Witness for C2 at a concrete 80-byte input. -/
theorem c2_valid_input_ok_witness :
    (scrypt_getpowhash (some (List.replicate 80 0)) true).result =
      Except.ok (scrypt_1024_1_1_256 (List.replicate 80 0)) ∧
    (scrypt_1024_1_1_256 (List.replicate 80 0)).length = 32 :=
  c2_valid_input_ok (List.replicate 80 0) (by decide)

/-- C3: the hash is deterministic — two successful calls on the same
80-byte input bytes return the same result, namely the digest of the pure
function `scrypt_1024_1_1_256`, which is 32 bytes long. -/
theorem c3_deterministic (x y : List Nat) (hx : x.length = 80) (hxy : y = x) :
    (scrypt_getpowhash (some x) true).result =
      (scrypt_getpowhash (some y) true).result ∧
    (scrypt_getpowhash (some x) true).result = Except.ok (scrypt_1024_1_1_256 x) ∧
    (scrypt_1024_1_1_256 x).length = 32 := by
  refine ⟨?_, (c2_valid_input_ok x hx).1, scrypt_digest_length x⟩
  rw [hxy]

/-- Witness for C3 at a concrete 80-byte input. -/
theorem c3_deterministic_witness :
    (scrypt_getpowhash (some (List.replicate 80 1)) true).result =
      (scrypt_getpowhash (some (List.replicate 80 1)) true).result ∧
    (scrypt_getpowhash (some (List.replicate 80 1)) true).result =
      Except.ok (scrypt_1024_1_1_256 (List.replicate 80 1)) ∧
    (scrypt_1024_1_1_256 (List.replicate 80 1)).length = 32 :=
  c3_deterministic (List.replicate 80 1) (List.replicate 80 1) (by decide) rfl

/-- C4: ROMix with N = 1024 first fills all 1024 table slots — slot i
holds the i-th BlockMix iterate of the initial B — handing the completed
table and the final fill-phase B to the mix phase, whose each of 1024
steps computes j = Integerify(B) mod N with Integerify reading the
low-order 32-bit word of the last block, XORs B with V[j] and sets
B = BlockMix(B). -/
theorem c4_romix_structure (B : List Nat) :
    romix B = romixMix (romixFill B 1024).1 1024 (romixFill B 1024).2 1024 ∧
    (romixFill B 1024).1.length = 1024 ∧
    (∀ i, i < 1024 → (romixFill B 1024).1.getD i [] = blockMix^[i] B) ∧
    (romixFill B 1024).2 = blockMix^[1024] B ∧
    (∀ V N C k, romixMix V N C (k + 1) =
      romixMix V N (blockMix (List.zipWith Nat.xor C (V.getD (integerify C % N) []))) k) ∧
    (∀ C : List Nat, integerify C = C.getD 16 0) :=
  ⟨rfl, romixFill_fst_length B 1024,
   fun i h => romixFill_fst_getD B 1024 i h,
   romixFill_snd B 1024,
   fun _ _ _ _ => rfl, fun _ => rfl⟩

/-- Witness for C4: the fill-phase slot equation instantiated at slot 5
of the all-zero buffer. -/
theorem c4_romix_structure_witness :
    (romixFill (List.replicate 32 0) 1024).1.getD 5 [] =
      blockMix^[5] (List.replicate 32 0) :=
  (c4_romix_structure (List.replicate 32 0)).2.2.1 5 (by decide)

/-- The 64-byte Salsa20/8 test input of RFC 7914 section 8, as 16
little-endian words. -/
def salsaProbe : List Nat :=
  toWordsLE
    [0x7e, 0x87, 0x9a, 0x21, 0x4f, 0x3e, 0xc9, 0x86, 0x7c, 0xa9, 0x40, 0xe6, 0x41, 0x71, 0x8f, 0x26,
     0xba, 0xee, 0x55, 0x5b, 0x8c, 0x61, 0xc1, 0xb5, 0x0d, 0xf8, 0x46, 0x11, 0x6d, 0xcd, 0x3b, 0x1d,
     0xee, 0x24, 0xf3, 0x19, 0xdf, 0x9b, 0x3d, 0x85, 0x14, 0x12, 0x1e, 0x4b, 0x5a, 0xc5, 0xaa, 0x32,
     0x76, 0x02, 0x1d, 0x29, 0x09, 0xc7, 0x48, 0x29, 0xed, 0xeb, 0xc6, 0x8d, 0xb8, 0xb8, 0xc2, 0x5e]

/-- C5 counterexample: on the RFC 7914 Salsa20/8 test block, the core's
output is not the input XORed with the 8-round result — the standard
feedforward is word-wise addition mod 2^32, not XOR. -/
theorem c5_xor_feedforward_false :
    ¬ salsa20_8 salsaProbe =
      List.zipWith Nat.xor salsaProbe
        (doubleround (doubleround (doubleround (doubleround salsaProbe)))) := by
  decide

/-- C5 (amended): the Salsa20/8 core combines the input word-wise mod
2^32 (addition, not XOR) with the result of 8 rounds — 4 double rounds,
each a column round followed by a row round — of the standard Salsa20
quarter-round ARX function with rotation constants 7, 9, 13, 18. -/
theorem c5_salsa_structure (x : List Nat) :
    salsa20_8 x =
      List.zipWith add32 x
        (doubleround (doubleround (doubleround (doubleround x)))) ∧
    (∀ st : List Nat, doubleround st = rowround (columnround st)) ∧
    (∀ st : List Nat, columnround st =
      quarterround (quarterround (quarterround (quarterround st 0 4 8 12) 5 9 13 1)
        10 14 2 6) 15 3 7 11) ∧
    (∀ st : List Nat, rowround st =
      quarterround (quarterround (quarterround (quarterround st 0 1 2 3) 5 6 7 4)
        10 11 8 9) 15 12 13 14) ∧
    (∀ (st : List Nat) (a b c d : Nat), quarterround st a b c d =
      (let s1 := st.set b (Nat.xor (st.getD b 0)
        (rotl32 (add32 (st.getD a 0) (st.getD d 0)) 7))
      let s2 := s1.set c (Nat.xor (s1.getD c 0)
        (rotl32 (add32 (s1.getD b 0) (s1.getD a 0)) 9))
      let s3 := s2.set d (Nat.xor (s2.getD d 0)
        (rotl32 (add32 (s2.getD c 0) (s2.getD b 0)) 13))
      s3.set a (Nat.xor (s3.getD a 0)
        (rotl32 (add32 (s3.getD d 0) (s3.getD c 0)) 18)))) :=
  ⟨rfl, fun _ => rfl, fun _ => rfl, fun _ => rfl, fun _ _ _ _ _ => rfl⟩

/-- C6: the PBKDF2-HMAC-SHA256 harness follows RFC 2898 with iteration
count 1 — each derived block is HMAC-SHA256 over the salt with the
1-based block counter appended big-endian — and the driver uses the
80-byte input as both password and salt in the expand step, and the input
as password with the ROMix-processed B as salt in the compress step. -/
theorem c6_pbkdf2_harness (input : List Nat) :
    (∀ pw salt i, pbkdf2Block pw salt i = hmacSha256 pw (salt ++ be32 i)) ∧
    (∀ pw salt dkLen, pbkdf2sha256 pw salt dkLen =
      (concatAll ((List.range ((dkLen + 31) / 32)).map
        (fun i => hmacSha256 pw (salt ++ be32 (i + 1))))).take dkLen) ∧
    scrypt_1024_1_1_256 input =
      pbkdf2sha256 input
        (fromWordsLE (romix (toWordsLE (pbkdf2sha256 input input 128)))) 32 :=
  ⟨fun _ _ _ => rfl, fun _ _ _ => rfl, rfl⟩

/-- C7: on an 80-byte input whose output allocation fails, the call fails
with the MemoryError, the hash core is never invoked and no output is
returned; the input buffer is still released once. -/
theorem c7_alloc_failure (x : List Nat) (h : x.length = 80) :
    scrypt_getpowhash (some x) false =
      ⟨Except.error ScryptError.memoryError, true, 1, true, false, some x⟩ := by
  simp [scrypt_getpowhash, h]

/-- Witness for C7 at a concrete 80-byte input. -/
theorem c7_alloc_failure_witness :
    scrypt_getpowhash (some (List.replicate 80 0)) false =
      ⟨Except.error ScryptError.memoryError, true, 1, true, false,
        some (List.replicate 80 0)⟩ :=
  c7_alloc_failure (List.replicate 80 0) (by decide)

/-- C8: the only error outcomes are the parse failure, the wrong-length
ValueError and the allocation MemoryError; on a parsed 80-byte input with
a successful allocation the call always returns the digest without
error. -/
theorem c8_error_taxonomy (args : Option (List Nat)) (allocOk : Bool) :
    (∀ e, (scrypt_getpowhash args allocOk).result = Except.error e →
      (args = none ∧ e = ScryptError.typeError) ∨
      (∃ x, args = some x ∧ x.length ≠ 80 ∧ e = ScryptError.valueError) ∨
      (∃ x, args = some x ∧ x.length = 80 ∧ allocOk = false ∧
        e = ScryptError.memoryError)) ∧
    (∀ x, args = some x → x.length = 80 → allocOk = true →
      (scrypt_getpowhash args allocOk).result =
        Except.ok (scrypt_1024_1_1_256 x)) := by
  constructor
  · intro e he
    match args with
    | none =>
      left
      have h2 : ScryptError.typeError = e := by
        simpa [scrypt_getpowhash] using he
      exact ⟨rfl, h2.symm⟩
    | some x =>
      by_cases h : x.length = 80
      · right; right
        cases allocOk with
        | false =>
          have h2 : ScryptError.memoryError = e := by
            simpa [scrypt_getpowhash, h] using he
          exact ⟨x, rfl, h, rfl, h2.symm⟩
        | true => simp [scrypt_getpowhash, h] at he
      · right; left
        have h2 : ScryptError.valueError = e := by
          simpa [scrypt_getpowhash, h] using he
        exact ⟨x, rfl, h, h2.symm⟩
  · rintro x rfl h rfl
    simp [scrypt_getpowhash, h]

/-- Witness for C8: on a concrete parsed 80-byte input with allocation
success the call returns the digest. -/
theorem c8_error_taxonomy_witness :
    (scrypt_getpowhash (some (List.replicate 80 0)) true).result =
      Except.ok (scrypt_1024_1_1_256 (List.replicate 80 0)) :=
  (c8_error_taxonomy (some (List.replicate 80 0)) true).2
    (List.replicate 80 0) rfl (by decide) rfl

/-- C9: when the argument cannot be parsed as a single bytes-like buffer,
the call returns the parse error before acquiring the buffer, before the
length check and output allocation, and without invoking the core. -/
theorem c9_parse_failure (allocOk : Bool) :
    scrypt_getpowhash none allocOk =
      ⟨Except.error ScryptError.typeError, false, 0, false, false, none⟩ :=
  rfl

/-- C10: whenever the input buffer was acquired — on the length-failure,
allocation-failure and success paths alike — it is released exactly once
and the caller's input bytes are unchanged when the call returns. -/
theorem c10_buffer_discipline (x : List Nat) (allocOk : Bool) :
    (scrypt_getpowhash (some x) allocOk).bufferAcquired = true ∧
    (scrypt_getpowhash (some x) allocOk).bufferReleases = 1 ∧
    (scrypt_getpowhash (some x) allocOk).inputAfter = some x := by
  by_cases h : x.length = 80 <;> cases allocOk <;>
    simp [scrypt_getpowhash, h]

/-! ### Known-answer vectors

The spec (section 8) requires the implementation to reproduce published
test vectors byte-for-byte; these check the modelled primitives against
the published FIPS 180-4 and RFC 7914 vectors. -/

set_option maxRecDepth 100000 in
/-- FIPS 180-4 known answer: SHA-256 of the three bytes "abc". -/
theorem sha256_kat_abc :
    sha256 [0x61, 0x62, 0x63] =
      [0xba, 0x78, 0x16, 0xbf, 0x8f, 0x01, 0xcf, 0xea,
       0x41, 0x41, 0x40, 0xde, 0x5d, 0xae, 0x22, 0x23,
       0xb0, 0x03, 0x61, 0xa3, 0x96, 0x17, 0x7a, 0x9c,
       0xb4, 0x10, 0xff, 0x61, 0xf2, 0x00, 0x15, 0xad] := by
  decide

/-- RFC 7914 section 8 known answer for the Salsa20/8 core. -/
theorem salsa20_8_kat_rfc7914 :
    fromWordsLE (salsa20_8 salsaProbe) =
      [0xa4, 0x1f, 0x85, 0x9c, 0x66, 0x08, 0xcc, 0x99, 0x3b, 0x81, 0xca, 0xcb, 0x02, 0x0c, 0xef, 0x05,
       0x04, 0x4b, 0x21, 0x81, 0xa2, 0xfd, 0x33, 0x7d, 0xfd, 0x7b, 0x1c, 0x63, 0x96, 0x68, 0x2f, 0x29,
       0xb4, 0x39, 0x31, 0x68, 0xe3, 0xc9, 0xe6, 0xbc, 0xfe, 0x6b, 0xc5, 0xb7, 0xa0, 0x6d, 0x96, 0xba,
       0xe4, 0x24, 0xcc, 0x10, 0x2c, 0x91, 0x74, 0x5c, 0x24, 0xad, 0x67, 0x3d, 0xc7, 0x61, 0x8f, 0x81] := by
  decide

end LtcScrypt
